import Mathlib

/-!
Shallow embedding of `src/unit_converter_backend/src/api/main.py`.

Numeric values are modelled by exact rationals (`ℚ`): the Python source works
with floats whose literals are decimal, and the spec describes the conversions
as exact formulas; `Float` rounding is outside the scope of this development.
Python's built-in `round(x, n)` (round-half-to-even to `n` decimal places) is
modelled by `pyRound`. Fallible Python code (functions that may raise) returns
`Except String`; a FastAPI handler's observable outcome is an `HResp`:
a successful JSON body, a raised-and-handled `HTTPException` (status, detail),
or an exception escaping the handler (`unhandled`).
-/

/-- Scale table for the `length` category of `UNIT_CATEGORIES` (base: meters). -/
def lengthUnits : List (String × ℚ) :=
  [("meters", 1.0), ("kilometers", 1000.0), ("centimeters", 0.01),
   ("millimeters", 0.001), ("miles", 1609.344), ("yards", 0.9144),
   ("feet", 0.3048), ("inches", 0.0254)]

/-- Scale table for the `weight` category of `UNIT_CATEGORIES` (base: kilograms). -/
def weightUnits : List (String × ℚ) :=
  [("kilograms", 1.0), ("grams", 0.001), ("milligrams", 0.000001),
   ("pounds", 0.45359237), ("ounces", 0.0283495231), ("stones", 6.35029318),
   ("tons", 1000.0)]

/-- Scale table for the `speed` category of `UNIT_CATEGORIES` (base: m/s). -/
def speedUnits : List (String × ℚ) :=
  [("m/s", 1.0), ("km/h", 0.277778), ("mph", 0.44704),
   ("ft/s", 0.3048), ("knots", 0.514444)]

/-- Unit names of the `temperature` category of `UNIT_CATEGORIES`
(its dict maps each of them to `None`; there is no scale table). -/
def temperatureUnitNames : List String := ["celsius", "fahrenheit", "kelvin"]

/-- `SUPPORTED_UNIT_CATEGORIES = list(UNIT_CATEGORIES.keys())`. -/
def SUPPORTED_UNIT_CATEGORIES : List String := ["length", "weight", "temperature", "speed"]

/-- Python dict lookup `units[u]` on an association list (first match wins;
the dict keys are distinct, so order is immaterial). -/
def lookupUnit : List (String × ℚ) → String → Option ℚ
  | [], _ => none
  | (k, s) :: rest, u => if u = k then some s else lookupUnit rest u

/-- `UNIT_CATEGORIES[category]["units"].keys()`, `none` for an unknown category. -/
def categoryUnitNames (category : String) : Option (List String) :=
  if category = "length" then some (lengthUnits.map Prod.fst)
  else if category = "weight" then some (weightUnits.map Prod.fst)
  else if category = "temperature" then some temperatureUnitNames
  else if category = "speed" then some (speedUnits.map Prod.fst)
  else none

/-- The ASCII single-quote character, as a string. -/
def singleQuote : String := String.singleton (Char.ofNat 39)

/-- Python `repr` of a string under single quotes, as produced by the
f-strings of the source (unit names contain no quotes or escapes). -/
def pyQuote (s : String) : String := singleQuote ++ s ++ singleQuote

/-- Python `repr`/`str` of a list of strings, e.g. the `Supported: [...]`
tail of the validation messages. -/
def pyStrListRepr (l : List String) : String :=
  "[" ++ String.intercalate ", " (l.map pyQuote) ++ "]"

/-- `convert_length`: `value * units[from_unit] / units[to_unit]`; a missing
key raises `KeyError` (modelled as an error carrying the repr of the key). -/
def convert_length (value : ℚ) (from_unit to_unit : String) : Except String ℚ :=
  match lookupUnit lengthUnits from_unit with
  | none => .error (pyQuote from_unit)
  | some sf =>
    match lookupUnit lengthUnits to_unit with
    | none => .error (pyQuote to_unit)
    | some st => .ok (value * sf / st)

/-- `convert_weight`: same shape as `convert_length` over the weight table. -/
def convert_weight (value : ℚ) (from_unit to_unit : String) : Except String ℚ :=
  match lookupUnit weightUnits from_unit with
  | none => .error (pyQuote from_unit)
  | some sf =>
    match lookupUnit weightUnits to_unit with
    | none => .error (pyQuote to_unit)
    | some st => .ok (value * sf / st)

/-- `convert_speed`: same shape as `convert_length` over the speed table. -/
def convert_speed (value : ℚ) (from_unit to_unit : String) : Except String ℚ :=
  match lookupUnit speedUnits from_unit with
  | none => .error (pyQuote from_unit)
  | some sf =>
    match lookupUnit speedUnits to_unit with
    | none => .error (pyQuote to_unit)
    | some st => .ok (value * sf / st)

/-- `convert_temperature`: short-circuit on equal units, otherwise normalize
to Celsius and project to the target; unknown names raise `ValueError`. -/
def convert_temperature (value : ℚ) (from_unit to_unit : String) : Except String ℚ :=
  if from_unit = to_unit then .ok value
  else
    match
      (if from_unit = "celsius" then .ok value
       else if from_unit = "fahrenheit" then .ok ((value - 32) * 5 / 9)
       else if from_unit = "kelvin" then .ok (value - 273.15)
       else .error ("Unsupported temperature unit: " ++ from_unit) : Except String ℚ)
    with
    | .error e => .error e
    | .ok c =>
      if to_unit = "celsius" then .ok c
      else if to_unit = "fahrenheit" then .ok (c * 9 / 5 + 32)
      else if to_unit = "kelvin" then .ok (c + 273.15)
      else .error ("Unsupported temperature unit: " ++ to_unit)

/-- Round-half-to-even to the nearest integer, the tie-breaking rule of
Python's built-in `round`. -/
def rhe (q : ℚ) : ℤ :=
  if q - ⌊q⌋ < 1 / 2 then ⌊q⌋
  else if 1 / 2 < q - ⌊q⌋ then ⌊q⌋ + 1
  else if ⌊q⌋ % 2 = 0 then ⌊q⌋ else ⌊q⌋ + 1

/-- Python's `round(x, n)`: round-half-to-even at `n` decimal places. -/
def pyRound (x : ℚ) (n : ℕ) : ℚ := (rhe (x * 10 ^ n) : ℚ) / 10 ^ n

/-- `round_result`: the magnitude-adaptive display rounding of the source. -/
def round_result (value : ℚ) : ℚ :=
  if |value| < 0.000001 then 0
  else if |value| < 1 then pyRound value 6
  else if |value| < 100 then pyRound value 4
  else if |value| < 10000 then pyRound value 2
  else pyRound value 1

/-- Observable outcome of a FastAPI handler: a successful body, a raised
`HTTPException` rendered as `{status, detail}` by the app's exception handler,
or an exception escaping the handler (which the framework turns into a
generic server fault, not an `HTTPException`). -/
inductive HResp (α : Type) where
  | ok (body : α)
  | httpError (status : ℕ) (detail : String)
  | unhandled (detail : String)
deriving DecidableEq

/-- `UnitConversionResponse` pydantic model. -/
structure UnitConversionResponse where
  category : String
  from_unit : String
  to_unit : String
  input_value : ℚ
  converted_value : ℚ
deriving DecidableEq

/-- Message of `validate_units` for an unknown category. -/
def invalidCategoryMsg (category : String) : String :=
  "Invalid category " ++ pyQuote category ++ ". Supported: " ++
    pyStrListRepr SUPPORTED_UNIT_CATEGORIES

/-- Message of `validate_units` for a `from_unit` outside the category. -/
def invalidFromUnitMsg (category from_unit : String) (units : List String) : String :=
  "from_unit " ++ pyQuote from_unit ++ " not valid for category " ++
    pyQuote category ++ ". Supported: " ++ pyStrListRepr units

/-- Message of `validate_units` for a `to_unit` outside the category. -/
def invalidToUnitMsg (category to_unit : String) (units : List String) : String :=
  "to_unit " ++ pyQuote to_unit ++ " not valid for category " ++
    pyQuote category ++ ". Supported: " ++ pyStrListRepr units

/-- `UnitConversionRequest.validate_units`: the pydantic `root_validator`,
raising `ValueError` (modelled as `.error`) on an unknown category or a unit
outside the category's unit set. -/
def validate_units (category from_unit to_unit : String) : Except String Unit :=
  match categoryUnitNames category with
  | none => .error (invalidCategoryMsg category)
  | some units =>
    if from_unit ∈ units then
      if to_unit ∈ units then .ok ()
      else .error (invalidToUnitMsg category to_unit units)
    else .error (invalidFromUnitMsg category from_unit units)

/-- `CONVERSION_FUNC`: the dict from category name to conversion function
(`none` models a `KeyError` on the dict access). -/
def CONVERSION_FUNC (category : String) : Option (ℚ → String → String → Except String ℚ) :=
  if category = "length" then some convert_length
  else if category = "weight" then some convert_weight
  else if category = "temperature" then some convert_temperature
  else if category = "speed" then some convert_speed
  else none

/-- `POST /convert` (`convert_units` handler). Modelled from the spec for the
framework layer that is not in `src/`: FastAPI runs the pydantic validation
(`validate_units`) before the handler and, per the spec's error taxonomy,
a `ValidationError` surfaces as a client error with status 400. Inside the
handler, the source's `try/except` turns any conversion error into
`HTTPException(400, str(e))`; a `KeyError` on the `CONVERSION_FUNC` dict
(unreachable after validation) would escape unhandled. -/
def convert_units (category from_unit to_unit : String) (value : ℚ) :
    HResp UnitConversionResponse :=
  match validate_units category from_unit to_unit with
  | .error e => .httpError 400 e
  | .ok _ =>
    match CONVERSION_FUNC category with
    | none => .unhandled ("KeyError: " ++ pyQuote category)
    | some conversion_func =>
      match conversion_func value from_unit to_unit with
      | .error e => .httpError 400 e
      | .ok result =>
        .ok { category := category, from_unit := from_unit, to_unit := to_unit,
              input_value := value, converted_value := round_result result }

/-- `CurrencyConversionRequest` pydantic model (`amount` is validated
positive by pydantic; no claim depends on that check). -/
structure CurrencyConversionRequest where
  from_currency : String
  to_currency : String
  amount : ℚ
deriving DecidableEq

/-- `CurrencyConversionResponse` pydantic model. -/
structure CurrencyConversionResponse where
  from_currency : String
  to_currency : String
  input_amount : ℚ
  converted_amount : ℚ
  rate : ℚ
deriving DecidableEq

/-- The `info` object of the upstream payload (`data["info"]`), which may or
may not carry a `rate` field. -/
structure UpstreamInfo where
  rate : Option ℚ
deriving DecidableEq

/-- The JSON payload of an upstream response, restricted to the fields the
source reads: `success`, `error`, `info.rate`, `result`, `symbols` (keys). -/
structure UpstreamData where
  success : Option Bool
  error : Option String
  info : Option UpstreamInfo
  result : Option ℚ
  symbols : Option (List String)
deriving DecidableEq

/-- Outcome of the outbound `httpx` call: a transport-level failure
(connection error, timeout, ...) or an HTTP response with a status code and
a JSON payload. -/
inductive UpstreamOutcome where
  | netError (msg : String)
  | response (status : ℕ) (data : UpstreamData)
deriving DecidableEq

/-- Message of the exception raised by `response.raise_for_status()` for a
non-2xx status. -/
def statusErrorMsg (status : ℕ) : String := "HTTP status error " ++ toString status

/-- `POST /currency/convert` (`convert_currency` handler), as a function of
the request and of the upstream call's outcome. The `try` block covers the
network call and `raise_for_status`, mapping any exception to a 502; then the
handler checks `data.get("success", True)` (400 on reported failure), then
extracts `info.rate` and `result` (502 if either is missing). -/
def convert_currency (req : CurrencyConversionRequest) (upstream : UpstreamOutcome) :
    HResp CurrencyConversionResponse :=
  match upstream with
  | .netError msg => .httpError 502 ("Currency API error: " ++ msg)
  | .response status data =>
    if 200 ≤ status ∧ status < 300 then
      if (data.success.getD true) = false then
        .httpError 400 ("Currency conversion failed: " ++ data.error.getD "Unknown error")
      else
        match data.result, (match data.info with | some i => i.rate | none => none) with
        | some converted, some rate =>
          .ok { from_currency := req.from_currency.toUpper,
                to_currency := req.to_currency.toUpper,
                input_amount := req.amount,
                converted_amount := round_result converted,
                rate := round_result rate }
        | _, _ => .httpError 502 "Currency API returned incomplete data"
    else .httpError 502 ("Currency API error: " ++ statusErrorMsg status)

/-- Insert a string into a sorted list, keeping it sorted (helper for the
model of Python's `sorted`). -/
def insertSorted (s : String) : List String → List String
  | [] => [s]
  | t :: rest => if s ≤ t then s :: t :: rest else t :: insertSorted s rest

/-- Model of Python's `sorted` on a list of strings (insertion sort). -/
def sortStrings (l : List String) : List String := l.foldr insertSorted []

/-- `GET /currency/symbols` (`get_currency_symbols` handler). The source has
no `try/except` and raises no `HTTPException`: a transport failure or a
non-2xx status propagates out of the handler unhandled; on success it returns
`sorted(list(data.get("symbols", {}).keys()))`, silently defaulting a missing
`symbols` field to the empty dict. -/
def get_currency_symbols (upstream : UpstreamOutcome) : HResp (List String) :=
  match upstream with
  | .netError msg => .unhandled msg
  | .response status data =>
    if 200 ≤ status ∧ status < 300 then
      .ok (sortStrings (data.symbols.getD []))
    else .unhandled (statusErrorMsg status)

/-- Temperature normalization step as worded by the spec (section 4.2, step 1):
celsius = value if from is celsius; `(value-32)*5/9` if fahrenheit;
`value-273.15` if kelvin. Stated from the spec to be compared with
`convert_temperature`. -/
def specToCelsius (value : ℚ) (u : String) : ℚ :=
  if u = "celsius" then value
  else if u = "fahrenheit" then (value - 32) * 5 / 9
  else value - 273.15

/-- Temperature projection step as worded by the spec (section 4.2, step 2):
value if celsius; `celsius*9/5+32` if fahrenheit; `celsius+273.15` if kelvin.
Stated from the spec to be compared with `convert_temperature`. -/
def specFromCelsius (c : ℚ) (u : String) : ℚ :=
  if u = "celsius" then c
  else if u = "fahrenheit" then c * 9 / 5 + 32
  else c + 273.15

theorem lookupUnit_snd_mem {l : List (String × ℚ)} {u : String} {s : ℚ}
    (h : lookupUnit l u = some s) : s ∈ l.map Prod.snd := by
  induction l with
  | nil => simp [lookupUnit] at h
  | cons p rest ih =>
    obtain ⟨k, s0⟩ := p
    rw [lookupUnit] at h
    by_cases hk : u = k
    · simp [hk] at h
      simp [h]
    · simp [hk] at h
      simp [ih h]

theorem lookupUnit_pos {l : List (String × ℚ)} {u : String} {s : ℚ}
    (hl : ∀ x ∈ l.map Prod.snd, 0 < x) (h : lookupUnit l u = some s) : 0 < s :=
  hl s (lookupUnit_snd_mem h)

theorem lengthUnits_pos : ∀ x ∈ lengthUnits.map Prod.snd, 0 < x := by
  simp [lengthUnits] <;> norm_num

theorem weightUnits_pos : ∀ x ∈ weightUnits.map Prod.snd, 0 < x := by
  simp [weightUnits] <;> norm_num

theorem speedUnits_pos : ∀ x ∈ speedUnits.map Prod.snd, 0 < x := by
  simp [speedUnits] <;> norm_num

/-- C1: for every linear category (length, weight, speed) and every pair of
units present in that category's table, the conversion function returns
exactly `value * scale[from_unit] / scale[to_unit]`. -/
theorem c1_linear_conversion_is_scale_ratio :
    (∀ (v sf st : ℚ) (f t : String), lookupUnit lengthUnits f = some sf →
        lookupUnit lengthUnits t = some st → convert_length v f t = .ok (v * sf / st)) ∧
    (∀ (v sf st : ℚ) (f t : String), lookupUnit weightUnits f = some sf →
        lookupUnit weightUnits t = some st → convert_weight v f t = .ok (v * sf / st)) ∧
    (∀ (v sf st : ℚ) (f t : String), lookupUnit speedUnits f = some sf →
        lookupUnit speedUnits t = some st → convert_speed v f t = .ok (v * sf / st)) := by
  refine ⟨?_, ?_, ?_⟩ <;> intro v sf st f t hf ht <;>
    simp [convert_length, convert_weight, convert_speed, hf, ht]

/-- Witness for `c1_linear_conversion_is_scale_ratio` at concrete units:
1 kilometer is 1 * 1000 / 1 meters. -/
theorem c1_linear_conversion_is_scale_ratio_witness :
    convert_length 1 "kilometers" "meters" = .ok (1 * 1000 / 1) :=
  c1_linear_conversion_is_scale_ratio.1 1 1000 1 "kilometers" "meters"
    (by simp [lookupUnit, lengthUnits] <;> norm_num) (by simp [lookupUnit, lengthUnits] <;> norm_num)

/-- C2: for distinct valid temperature units, `convert_temperature`
normalizes to Celsius and then projects to the target, exactly as the spec's
formulas state; in particular 0 °C = 32 °F, 212 °F = 100 °C, 0 °C = 273.15 K. -/
theorem c2_temperature_normalize_then_project :
    (∀ (v : ℚ) (f t : String), f ∈ temperatureUnitNames → t ∈ temperatureUnitNames →
        f ≠ t → convert_temperature v f t = .ok (specFromCelsius (specToCelsius v f) t)) ∧
    convert_temperature 0 "celsius" "fahrenheit" = .ok 32 ∧
    convert_temperature 212 "fahrenheit" "celsius" = .ok 100 ∧
    convert_temperature 0 "celsius" "kelvin" = .ok 273.15 := by
  refine ⟨?_, by simp [convert_temperature] <;> norm_num, by simp [convert_temperature] <;> norm_num,
    by simp [convert_temperature] <;> norm_num⟩
  intro v f t hf ht hne
  simp only [temperatureUnitNames, List.mem_cons, List.not_mem_nil, or_false] at hf ht
  rcases hf with rfl | rfl | rfl <;> rcases ht with rfl | rfl | rfl <;>
    simp_all [convert_temperature, specToCelsius, specFromCelsius]

/-- Witness for `c2_temperature_normalize_then_project` at a concrete pair:
5 K converted to Celsius follows the two-step formula. -/
theorem c2_temperature_normalize_then_project_witness :
    convert_temperature 5 "kelvin" "celsius" =
      .ok (specFromCelsius (specToCelsius 5 "kelvin") "celsius") :=
  c2_temperature_normalize_then_project.1 5 "kelvin" "celsius" (by decide) (by decide) (by decide)

/-- C8: converting any valid unit to itself is the identity, in all four
categories (for temperature by the short-circuit, for the linear categories
because `v * s / s = v` with a positive scale factor). -/
theorem c8_same_unit_is_identity :
    (∀ (u : String) (s v : ℚ), lookupUnit lengthUnits u = some s →
        convert_length v u u = .ok v) ∧
    (∀ (u : String) (s v : ℚ), lookupUnit weightUnits u = some s →
        convert_weight v u u = .ok v) ∧
    (∀ (u : String) (s v : ℚ), lookupUnit speedUnits u = some s →
        convert_speed v u u = .ok v) ∧
    (∀ (u : String) (v : ℚ), u ∈ temperatureUnitNames →
        convert_temperature v u u = .ok v) := by
  refine ⟨?_, ?_, ?_, ?_⟩
  · intro u s v h
    have hs : 0 < s := lookupUnit_pos lengthUnits_pos h
    simp [convert_length, h, mul_div_assoc, div_self hs.ne', mul_one]
  · intro u s v h
    have hs : 0 < s := lookupUnit_pos weightUnits_pos h
    simp [convert_weight, h, mul_div_assoc, div_self hs.ne', mul_one]
  · intro u s v h
    have hs : 0 < s := lookupUnit_pos speedUnits_pos h
    simp [convert_speed, h, mul_div_assoc, div_self hs.ne', mul_one]
  · intro u v _
    simp [convert_temperature]

/-- Witness for `c8_same_unit_is_identity` at concrete units. -/
theorem c8_same_unit_is_identity_witness :
    convert_length 42 "miles" "miles" = .ok 42 ∧
    convert_temperature 7 "celsius" "celsius" = .ok 7 :=
  ⟨c8_same_unit_is_identity.1 "miles" 1609.344 42 (by simp [lookupUnit, lengthUnits]),
   c8_same_unit_is_identity.2.2.2 "celsius" 7 (by decide)⟩

/-- C3: `round_result` implements exactly the piecewise magnitude rule on
`|value|` (return 0 below 1e-6, then 6/4/2/1 decimal places by magnitude),
with the spec's four sample values. -/
theorem c3_round_result_magnitude_rule :
    (∀ v : ℚ,
      (|v| < 0.000001 → round_result v = 0) ∧
      (0.000001 ≤ |v| → |v| < 1 → round_result v = pyRound v 6) ∧
      (1 ≤ |v| → |v| < 100 → round_result v = pyRound v 4) ∧
      (100 ≤ |v| → |v| < 10000 → round_result v = pyRound v 2) ∧
      (10000 ≤ |v| → round_result v = pyRound v 1)) ∧
    round_result 0.0000001 = 0 ∧ round_result 0.5 = 0.5 ∧
    round_result 12345 = 12345 ∧ round_result 50 = 50 := by
  refine ⟨fun v => ⟨?_, ?_, ?_, ?_, ?_⟩,
    by norm_num [round_result, pyRound, rhe],
    by norm_num [round_result, pyRound, rhe, abs_of_pos],
    by norm_num [round_result, pyRound, rhe],
    by norm_num [round_result, pyRound, rhe]⟩
  · intro h
    rw [round_result, if_pos h]
  · intro h1 h2
    rw [round_result, if_neg (by linarith), if_pos h2]
  · intro h1 h2
    rw [round_result, if_neg (by linarith), if_neg (by linarith), if_pos h2]
  · intro h1 h2
    rw [round_result, if_neg (by linarith), if_neg (by linarith), if_neg (by linarith),
      if_pos h2]
  · intro h1
    rw [round_result, if_neg (by linarith), if_neg (by linarith), if_neg (by linarith),
      if_neg (by linarith)]

/-- Witness for `c3_round_result_magnitude_rule`: the 4-decimal branch at 50. -/
theorem c3_round_result_magnitude_rule_witness :
    round_result 50 = pyRound 50 4 :=
  (c3_round_result_magnitude_rule.1 50).2.2.1 (by norm_num) (by norm_num)

theorem rhe_neg (q : ℚ) : rhe (-q) = - rhe q := by
  have hfl : (↑⌊q⌋ : ℚ) ≤ q := Int.floor_le q
  have hfu : q < ⌊q⌋ + 1 := Int.lt_floor_add_one q
  by_cases hint : (⌊q⌋ : ℚ) = q
  · have hq : ⌊-q⌋ = -⌊q⌋ := by
      conv_lhs => rw [← hint, ← Int.cast_neg, Int.floor_intCast]
    unfold rhe
    rw [hq]
    push_cast
    split_ifs <;> push_cast at * <;> first | omega | linarith
  · have h0 : (↑⌊q⌋ : ℚ) < q := lt_of_le_of_ne hfl hint
    have hq : ⌊-q⌋ = -⌊q⌋ - 1 :=
      Int.floor_eq_iff.mpr ⟨by push_cast; linarith, by push_cast; linarith⟩
    unfold rhe
    rw [hq]
    push_cast
    split_ifs <;> push_cast at * <;> first | omega | linarith

theorem pyRound_neg (x : ℚ) (n : ℕ) : pyRound (-x) n = -pyRound x n := by
  rw [pyRound, pyRound, neg_mul, rhe_neg]
  push_cast
  ring

/-- C10: `round_result` is antisymmetric under negation:
`round_result (-v) = -(round_result v)` for every value. -/
theorem c10_round_result_antisymmetric : ∀ v : ℚ, round_result (-v) = - round_result v := by
  intro v
  rw [round_result, round_result, abs_neg]
  split_ifs <;> simp [pyRound_neg]

/-- C6 counterexample: with an unknown unit name on both sides,
`convert_temperature` hits the `from_unit == to_unit` short-circuit before any
validation and silently returns the value instead of failing. -/
theorem c6_counterexample_unknown_unit_short_circuit :
    convert_temperature 5 "rankine" "rankine" = .ok 5 ∧
    ¬∃ m, convert_temperature 5 "rankine" "rankine" = .error m := by
  constructor
  · simp [convert_temperature]
  · rintro ⟨m, hm⟩
    simp [convert_temperature] at hm

/-- C6 (amended): for every pair of distinct temperature unit names with at
least one name outside {celsius, fahrenheit, kelvin}, `convert_temperature`
fails with an error naming the offending unit (the first-checked `from_unit`
if it is invalid, otherwise `to_unit`); when `from_unit == to_unit` the value
is returned unchanged even for unknown names. -/
theorem c6_invalid_temperature_unit_error :
    (∀ (v : ℚ) (f t : String), f ≠ t →
      (f ∉ temperatureUnitNames ∨ t ∉ temperatureUnitNames) →
      ∃ m, convert_temperature v f t = .error m ∧
        ((f ∉ temperatureUnitNames ∧ m = "Unsupported temperature unit: " ++ f) ∨
         (f ∈ temperatureUnitNames ∧ m = "Unsupported temperature unit: " ++ t))) ∧
    (∀ (v : ℚ) (u : String), convert_temperature v u u = .ok v) := by
  constructor
  · intro v f t hne hbad
    by_cases hf : f ∈ temperatureUnitNames
    · have ht : t ∉ temperatureUnitNames := by
        rcases hbad with h | h
        · exact absurd hf h
        · exact h
      refine ⟨"Unsupported temperature unit: " ++ t, ?_, Or.inr ⟨hf, rfl⟩⟩
      have ht' := ht
      simp only [temperatureUnitNames, List.mem_cons, List.not_mem_nil, or_false,
        not_or] at ht'
      obtain ⟨ht1, ht2, ht3⟩ := ht'
      have hf' := hf
      simp only [temperatureUnitNames, List.mem_cons, List.not_mem_nil, or_false] at hf'
      rcases hf' with rfl | rfl | rfl <;> simp [convert_temperature, hne, ht1, ht2, ht3]
    · refine ⟨"Unsupported temperature unit: " ++ f, ?_, Or.inl ⟨hf, rfl⟩⟩
      have hf' := hf
      simp only [temperatureUnitNames, List.mem_cons, List.not_mem_nil, or_false,
        not_or] at hf'
      obtain ⟨hf1, hf2, hf3⟩ := hf'
      simp [convert_temperature, hne, hf1, hf2, hf3]
  · intro v u
    simp [convert_temperature]

/-- Witness for `c6_invalid_temperature_unit_error` at a concrete invalid pair. -/
theorem c6_invalid_temperature_unit_error_witness :
    ∃ m, convert_temperature 1 "rankine" "celsius" = .error m ∧
      ((("rankine" : String) ∉ temperatureUnitNames ∧
          m = "Unsupported temperature unit: " ++ "rankine") ∨
       (("rankine" : String) ∈ temperatureUnitNames ∧
          m = "Unsupported temperature unit: " ++ "celsius")) :=
  c6_invalid_temperature_unit_error.1 1 "rankine" "celsius" (by decide) (Or.inl (by decide))

theorem unit_infix_invalidFromUnitMsg (category from_unit : String) (units : List String) :
    from_unit.data <:+: (invalidFromUnitMsg category from_unit units).data := by
  refine ⟨("from_unit " ++ singleQuote).data,
    (singleQuote ++ " not valid for category " ++ pyQuote category ++ ". Supported: " ++
      pyStrListRepr units).data, ?_⟩
  simp [invalidFromUnitMsg, pyQuote]

theorem unit_infix_invalidToUnitMsg (category to_unit : String) (units : List String) :
    to_unit.data <:+: (invalidToUnitMsg category to_unit units).data := by
  refine ⟨("to_unit " ++ singleQuote).data,
    (singleQuote ++ " not valid for category " ++ pyQuote category ++ ". Supported: " ++
      pyStrListRepr units).data, ?_⟩
  simp [invalidToUnitMsg, pyQuote]

theorem listRepr_infix_invalidFromUnitMsg (category from_unit : String) (units : List String) :
    (pyStrListRepr units).data <:+: (invalidFromUnitMsg category from_unit units).data := by
  refine ⟨("from_unit " ++ pyQuote from_unit ++ " not valid for category " ++
    pyQuote category ++ ". Supported: ").data, [], ?_⟩
  simp [invalidFromUnitMsg]

theorem listRepr_infix_invalidToUnitMsg (category to_unit : String) (units : List String) :
    (pyStrListRepr units).data <:+: (invalidToUnitMsg category to_unit units).data := by
  refine ⟨("to_unit " ++ pyQuote to_unit ++ " not valid for category " ++
    pyQuote category ++ ". Supported: ").data, [], ?_⟩
  simp [invalidToUnitMsg]

/-- C4: a `POST /convert` request whose category is supported but whose
`from_unit` or `to_unit` is not in that category's unit set is answered with
a client error (status 400, per the spec's taxonomy for the framework's
handling of the validator) whose message names the offending unit and the
supported alternatives; the handler neither crashes nor falls back. -/
theorem c4_invalid_unit_yields_400 :
    ∀ (category from_unit to_unit : String) (value : ℚ) (units : List String),
      categoryUnitNames category = some units →
      (from_unit ∉ units ∨ to_unit ∉ units) →
      ∃ msg, convert_units category from_unit to_unit value = .httpError 400 msg ∧
        ((from_unit ∉ units ∧ msg = invalidFromUnitMsg category from_unit units ∧
            from_unit.data <:+: msg.data) ∨
         (from_unit ∈ units ∧ to_unit ∉ units ∧ msg = invalidToUnitMsg category to_unit units ∧
            to_unit.data <:+: msg.data)) ∧
        (pyStrListRepr units).data <:+: msg.data := by
  intro category from_unit to_unit value units hcat hbad
  by_cases hf : from_unit ∈ units
  · have ht : to_unit ∉ units := by
      rcases hbad with h | h
      · exact absurd hf h
      · exact h
    refine ⟨invalidToUnitMsg category to_unit units, ?_,
      Or.inr ⟨hf, ht, rfl, unit_infix_invalidToUnitMsg category to_unit units⟩,
      listRepr_infix_invalidToUnitMsg category to_unit units⟩
    simp [convert_units, validate_units, hcat, hf, ht]
  · refine ⟨invalidFromUnitMsg category from_unit units, ?_,
      Or.inl ⟨hf, rfl, unit_infix_invalidFromUnitMsg category from_unit units⟩,
      listRepr_infix_invalidFromUnitMsg category from_unit units⟩
    simp [convert_units, validate_units, hcat, hf]

/-- Witness for `c4_invalid_unit_yields_400`: `furlongs` is not a length unit. -/
theorem c4_invalid_unit_yields_400_witness :
    ∃ msg, convert_units "length" "furlongs" "meters" 3 = .httpError 400 msg ∧
      ((("furlongs" : String) ∉ lengthUnits.map Prod.fst ∧
          msg = invalidFromUnitMsg "length" "furlongs" (lengthUnits.map Prod.fst) ∧
          "furlongs".data <:+: msg.data) ∨
       (("furlongs" : String) ∈ lengthUnits.map Prod.fst ∧
          ("meters" : String) ∉ lengthUnits.map Prod.fst ∧
          msg = invalidToUnitMsg "length" "meters" (lengthUnits.map Prod.fst) ∧
          "meters".data <:+: msg.data)) ∧
      (pyStrListRepr (lengthUnits.map Prod.fst)).data <:+: msg.data :=
  c4_invalid_unit_yields_400 "length" "furlongs" "meters" 3 (lengthUnits.map Prod.fst)
    (by simp [categoryUnitNames]) (Or.inl (by decide))

/-- C9: a successful `POST /convert` response echoes category, units and the
unrounded input value exactly as received; only `converted_value` goes
through the rounding policy, applied to the raw conversion result. -/
theorem c9_response_echoes_request :
    ∀ (category from_unit to_unit : String) (value : ℚ) (resp : UnitConversionResponse),
      convert_units category from_unit to_unit value = .ok resp →
      resp.category = category ∧ resp.from_unit = from_unit ∧ resp.to_unit = to_unit ∧
      resp.input_value = value ∧
      ∃ f raw, CONVERSION_FUNC category = some f ∧ f value from_unit to_unit = .ok raw ∧
        resp.converted_value = round_result raw := by
  intro category from_unit to_unit value resp h
  cases hv : validate_units category from_unit to_unit with
  | error e => simp [convert_units, hv] at h
  | ok u =>
    cases hc : CONVERSION_FUNC category with
    | none => simp [convert_units, hv, hc] at h
    | some fn =>
      cases hr : fn value from_unit to_unit with
      | error e => simp [convert_units, hv, hc, hr] at h
      | ok raw =>
        simp only [convert_units, hv, hc, hr, HResp.ok.injEq] at h
        subst h
        exact ⟨rfl, rfl, rfl, rfl, fn, raw, rfl, hr, rfl⟩

/-- Witness for `c9_response_echoes_request` on a concrete request. -/
theorem c9_response_echoes_request_witness :
    ({ category := "length", from_unit := "feet", to_unit := "inches", input_value := 3,
       converted_value := round_result (3 * 0.3048 / 0.0254) } :
        UnitConversionResponse).category = "length" ∧
    ({ category := "length", from_unit := "feet", to_unit := "inches", input_value := 3,
       converted_value := round_result (3 * 0.3048 / 0.0254) } :
        UnitConversionResponse).from_unit = "feet" ∧
    ({ category := "length", from_unit := "feet", to_unit := "inches", input_value := 3,
       converted_value := round_result (3 * 0.3048 / 0.0254) } :
        UnitConversionResponse).to_unit = "inches" ∧
    ({ category := "length", from_unit := "feet", to_unit := "inches", input_value := 3,
       converted_value := round_result (3 * 0.3048 / 0.0254) } :
        UnitConversionResponse).input_value = 3 ∧
    ∃ f raw, CONVERSION_FUNC "length" = some f ∧ f 3 "feet" "inches" = .ok raw ∧
      ({ category := "length", from_unit := "feet", to_unit := "inches", input_value := 3,
         converted_value := round_result (3 * 0.3048 / 0.0254) } :
          UnitConversionResponse).converted_value = round_result raw :=
  c9_response_echoes_request "length" "feet" "inches" 3 _
    (by simp [convert_units, validate_units, categoryUnitNames, lengthUnits,
      CONVERSION_FUNC, convert_length, lookupUnit])

/-- A sample currency request used by concrete instances. -/
def currencyReqSample : CurrencyConversionRequest :=
  { from_currency := "usd", to_currency := "eur", amount := 100 }

/-- A 2xx upstream payload that reports failure (`success: false`) and lacks
`result`, `info.rate` and `symbols`. -/
def upstreamFailurePayload : UpstreamData :=
  { success := some false, error := none, info := none, result := none, symbols := none }

/-- C5 counterexample: on a 2xx upstream response whose payload both reports
a logical failure and lacks `result` and `rate`, the endpoint answers 400
(the `success` check runs first), not the 502 the claim requires whenever the
payload lacks the result or the rate. -/
theorem c5_counterexample_failure_with_missing_fields :
    convert_currency currencyReqSample (.response 200 upstreamFailurePayload) =
      .httpError 400 ("Currency conversion failed: " ++ "Unknown error") ∧
    ¬∃ d, convert_currency currencyReqSample (.response 200 upstreamFailurePayload) =
      .httpError 502 d := by
  constructor
  · simp [convert_currency, currencyReqSample, upstreamFailurePayload]
  · rintro ⟨d, hd⟩
    simp [convert_currency, currencyReqSample, upstreamFailurePayload] at hd

/-- C5 (amended): `POST /currency/convert` answers 502 on a network failure
or a non-2xx upstream status; on a 2xx response it answers 400 if the payload
reports a logical failure (this check has priority), and 502 if the payload
does not report failure but lacks the result or the rate; an error outcome is
never a success body, so no numeric field is partially filled. -/
theorem c5_currency_error_statuses :
    ∀ (req : CurrencyConversionRequest) (msg : String) (status : ℕ) (data : UpstreamData),
      (convert_currency req (.netError msg) =
        .httpError 502 ("Currency API error: " ++ msg)) ∧
      (¬(200 ≤ status ∧ status < 300) →
        convert_currency req (.response status data) =
          .httpError 502 ("Currency API error: " ++ statusErrorMsg status)) ∧
      ((200 ≤ status ∧ status < 300) → data.success.getD true = false →
        convert_currency req (.response status data) =
          .httpError 400 ("Currency conversion failed: " ++ data.error.getD "Unknown error")) ∧
      ((200 ≤ status ∧ status < 300) → data.success.getD true = true →
        (data.result = none ∨
          (match data.info with | some i => i.rate | none => none) = none) →
        convert_currency req (.response status data) =
          .httpError 502 "Currency API returned incomplete data") ∧
      (∀ (s : ℕ) (d : String) (body : CurrencyConversionResponse),
        convert_currency req (.response status data) = .httpError s d →
        convert_currency req (.response status data) ≠ .ok body) := by
  intro req msg status data
  refine ⟨rfl, ?_, ?_, ?_, ?_⟩
  · intro h
    simp [convert_currency, h]
  · intro h2 hsf
    simp [convert_currency, h2, hsf]
  · intro h2 hst hmiss
    rcases hmiss with hr | hrate
    · simp [convert_currency, h2, hst, hr]
    · cases hres : data.result with
      | none => simp [convert_currency, h2, hst, hres]
      | some c => simp [convert_currency, h2, hst, hres, hrate]
  · intro s d body he
    rw [he]
    simp

/-- Witness for `c5_currency_error_statuses`: a 500 upstream status. -/
theorem c5_currency_error_statuses_witness :
    convert_currency currencyReqSample (.response 500 upstreamFailurePayload) =
      .httpError 502 ("Currency API error: " ++ statusErrorMsg 500) :=
  (c5_currency_error_statuses currencyReqSample "x" 500 upstreamFailurePayload).2.1 (by decide)

/-- C7 counterexample: on a network failure, `GET /currency/symbols` (which
has no `try/except` and raises no `HTTPException`) lets the exception escape
the handler instead of answering 502. -/
theorem c7_counterexample_symbols_unhandled :
    get_currency_symbols (.netError "connection timeout") =
      .unhandled "connection timeout" ∧
    ¬∃ d, get_currency_symbols (.netError "connection timeout") = .httpError 502 d := by
  constructor
  · rfl
  · rintro ⟨d, hd⟩
    simp [get_currency_symbols] at hd

/-- C7 (amended): for `POST /currency/convert`, network failures and non-2xx
responses surface as 502, and missing `result`/`rate` fields surface as 502
when the provider did not report a logical failure; `GET /currency/symbols`
does not classify upstream failures: network failures and non-2xx responses
propagate out of the handler unhandled (a generic server fault, not a 502),
and a payload lacking `symbols` silently yields an empty list. -/
theorem c7_upstream_error_surfacing :
    ∀ (req : CurrencyConversionRequest) (msg : String) (status : ℕ) (data : UpstreamData),
      (convert_currency req (.netError msg) =
        .httpError 502 ("Currency API error: " ++ msg)) ∧
      (¬(200 ≤ status ∧ status < 300) →
        convert_currency req (.response status data) =
          .httpError 502 ("Currency API error: " ++ statusErrorMsg status)) ∧
      ((200 ≤ status ∧ status < 300) → data.success.getD true = true →
        (data.result = none ∨
          (match data.info with | some i => i.rate | none => none) = none) →
        convert_currency req (.response status data) =
          .httpError 502 "Currency API returned incomplete data") ∧
      (get_currency_symbols (.netError msg) = .unhandled msg) ∧
      (¬(200 ≤ status ∧ status < 300) →
        get_currency_symbols (.response status data) = .unhandled (statusErrorMsg status)) ∧
      ((200 ≤ status ∧ status < 300) → data.symbols = none →
        get_currency_symbols (.response status data) = .ok []) := by
  intro req msg status data
  refine ⟨rfl, ?_, ?_, rfl, ?_, ?_⟩
  · intro h
    simp [convert_currency, h]
  · intro h2 hst hmiss
    rcases hmiss with hr | hrate
    · simp [convert_currency, h2, hst, hr]
    · cases hres : data.result with
      | none => simp [convert_currency, h2, hst, hres]
      | some c => simp [convert_currency, h2, hst, hres, hrate]
  · intro h
    simp [get_currency_symbols, h]
  · intro h2 hs
    simp [get_currency_symbols, h2, hs, sortStrings]

/-- Witness for `c7_upstream_error_surfacing`: a payload without `symbols`
on a 2xx status yields the empty list. -/
theorem c7_upstream_error_surfacing_witness :
    get_currency_symbols (.response 200 upstreamFailurePayload) = .ok [] :=
  (c7_upstream_error_surfacing currencyReqSample "x" 200
    upstreamFailurePayload).2.2.2.2.2 (by decide) rfl
